import Mathlib

/-!
Verification of the rustlink price-feed client (src/interface/mod.rs).

The development shallowly embeds the library: machine integers become
naturals with explicit bounds, IEEE 754 binary64 values are carried by
their exact rational values together with a computable round-to-nearest-even
rounding function, asynchronous remote calls become an explicit environment
parameter describing the fate of the single dispatched call, and a possible
panic is an Option none result.  Each operation additionally returns the
list of remotely dispatched method names, so that call-count properties of
the specification can be stated.
-/

attribute [local semireducible] Rat.add Rat.sub Rat.mul Rat.inv

namespace Rustlink

/-! ## A computable model of IEEE 754 binary64 arithmetic

A finite binary64 value is represented by its exact rational value.
`roundF64` rounds an arbitrary rational to the nearest representable value
(round to nearest, ties to even), covering normal and subnormal magnitudes;
the program under verification never reaches the overflow threshold 2^1024,
so the model does not introduce infinities. -/

/-- Round the ratio N / D of naturals to the nearest integer, ties to even. -/
def rneNat (N D : ℕ) : ℕ :=
  let q := N / D
  let r := N % D
  if 2 * r < D then q
  else if D < 2 * r then q + 1
  else if q % 2 = 0 then q else q + 1

/-- Fuel-driven floor of the base-2 logarithm; with fuel at least the bit
length of n it returns the exact value. -/
def log2Fuel : ℕ → ℕ → ℕ
  | 0, _ => 0
  | f + 1, n => if n ≤ 1 then 0 else log2Fuel f (n / 2) + 1

/-- Floor of the base-2 logarithm of a positive natural. -/
def natLog2 (n : ℕ) : ℕ := log2Fuel (n + 1) n

/-- Decides whether p / d is at least 2 ^ e, over the naturals. -/
def ge2pow (p d : ℕ) (e : ℤ) : Bool :=
  if 0 ≤ e then decide (d * 2 ^ e.toNat ≤ p) else decide (d ≤ p * 2 ^ (-e).toNat)

/-- Floor of the base-2 logarithm of the positive rational p / d. -/
def ratLog2 (p d : ℕ) : ℤ :=
  let c : ℤ := (natLog2 p : ℤ) - (natLog2 d : ℤ)
  if ge2pow p d c then c else c - 1

/-- The rational m * 2 ^ e. -/
def ratOfShift (m : ℕ) (e : ℤ) : ℚ :=
  if 0 ≤ e then ((m * 2 ^ e.toNat : ℕ) : ℚ) else ((m : ℕ) : ℚ) / ((2 ^ (-e).toNat : ℕ) : ℚ)

/-- Round the positive rational p / d to the nearest IEEE 754 binary64 value
(ties to even), returning its exact rational value.  The exponent is clamped
below at the subnormal limit -1074. -/
def roundPosF64 (p d : ℕ) : ℚ :=
  let e : ℤ := max (ratLog2 p d - 52) (-1074)
  let m : ℕ := if 0 ≤ e then rneNat p (d * 2 ^ e.toNat) else rneNat (p * 2 ^ (-e).toNat) d
  ratOfShift m e

/-- Round a rational to the nearest IEEE 754 binary64 value. -/
def roundF64 (q : ℚ) : ℚ :=
  if q = 0 then 0
  else if 0 < q then roundPosF64 q.num.natAbs q.den
  else -roundPosF64 q.num.natAbs q.den

/-- binary64 multiplication on exactly carried values. -/
def fmul (a b : ℚ) : ℚ := roundF64 (a * b)

/-- binary64 division on exactly carried values. -/
def fdiv (a b : ℚ) : ℚ := roundF64 (a / b)

/-- Exponentiation by squaring with one binary64 rounding per multiplication;
this is how the compiler lowers the integer-power intrinsic behind the
f64 powi method used at line 103 of the source. -/
def powiLoop : ℕ → ℚ → ℚ → ℕ → ℚ
  | 0, acc, _, _ => acc
  | f + 1, acc, sq, n =>
    if n = 0 then acc
    else powiLoop f (if n % 2 = 1 then fmul acc sq else acc) (fmul sq sq) (n / 2)

/-- Models the Rust f64 powi method on a nonnegative exponent. -/
def powiF64 (x : ℚ) (n : ℕ) : ℚ := powiLoop 64 1 x n

/-! ## Decimal strings and float parsing

`decimalString` models the Display implementation for unsigned machine
integers in Rust (used by to_string at line 100 of the source): the exact
decimal representation.  `parseF64Str` models str parsing into f64 on the
fragment of its input grammar reachable in this program: a nonempty string
of decimal digits parses to the correctly rounded binary64 value of the
denoted integer (Rust guarantees correctly rounded decimal-to-float
conversion); every other shape is conservatively rejected. -/

/-- Decimal digit characters of n, most significant first; empty for n = 0.
The first argument is fuel, in excess of the number of digits. -/
def digitsAux : ℕ → ℕ → List Char
  | 0, _ => []
  | f + 1, n => if n = 0 then [] else digitsAux f (n / 10) ++ [Char.ofNat (48 + n % 10)]

/-- The exact decimal string representation of a natural number. -/
def decimalString (n : ℕ) : String := if n = 0 then "0" else String.mk (digitsAux (n + 1) n)

/-- Is the character a decimal digit? -/
def isDigitChar (c : Char) : Bool := 48 ≤ c.toNat && c.toNat ≤ 57

/-- Numeric value of a decimal digit character. -/
def digitVal (c : Char) : ℕ := c.toNat - 48

/-- Value of a big-endian list of decimal digit characters. -/
def digitsVal (cs : List Char) : ℕ := cs.foldl (fun a c => 10 * a + digitVal c) 0

/-- Model of str parsing into f64, restricted to unsigned decimal integer
strings, which are the only strings this program ever parses. -/
def parseF64Str (s : String) : Option ℚ :=
  if s.data ≠ [] ∧ s.data.all isDigitChar then some (roundF64 (digitsVal s.data : ℚ)) else none

/-! ## The embedded data model of src/interface/mod.rs

U256 values are naturals (bounds are carried as hypotheses where they
matter), u128 and u8 likewise, Duration is an abstract natural, and the
ethers middleware types are reduced to the parts this crate touches. -/

/-- Model of the ethers Provider handle: an opaque endpoint reference. -/
structure Provider where
  url : String
deriving DecidableEq

/-- Model of ethers abi AbiError, as produced when a method name is looked
up against an ABI that does not define it. -/
structure AbiError where
  message : String
deriving DecidableEq

/-- Model of ethers ContractError: an opaque transport or execution
failure report. -/
structure ContractError where
  detail : String
deriving DecidableEq

/-- The From conversion of an AbiError into a ContractError that the
question-mark operator applies inside round_data (line 88). -/
def ContractError.ofAbi (e : AbiError) : ContractError := ⟨e.message⟩

/-- Model of an ethers contract instance: the address it is bound to, the
function names of its ABI, and the borrowed endpoint. -/
structure Contract where
  address : ℕ
  abi : List String
  client : Provider
deriving DecidableEq

/-- Model of a prepared method call (the value ethers returns from a
successful method lookup). -/
structure FunctionCall where
  name : String
deriving DecidableEq

/-- Method lookup against the ABI of the contract: succeeds exactly when
the ABI defines the requested function name. -/
def Contract.method (c : Contract) (name : String) : Except AbiError FunctionCall :=
  if name ∈ c.abi then .ok ⟨name⟩ else .error ⟨name⟩

/-- Modelled from the spec: the embedded contract schema
IAggregatorV3Interface.json is included at build time and is not under
src/; per the specification it exposes exactly the two read-only functions
decimals and latestRoundData. -/
def aggregatorV3Abi : List String := ["decimals", "latestRoundData"]

/-- Contract construction (line 74): binds the address and the parsed ABI
to the borrowed provider. -/
def Contract.new (address : ℕ) (abi : List String) (provider : Provider) : Contract :=
  ⟨address, abi, provider⟩

/-- The error enum of the source (lines 20 to 28): Abi is the schema kind,
Timeout the deadline kind, Contract the remote kind. -/
inductive ContractCallError where
  | Abi (e : AbiError)
  | Timeout
  | Contract (e : ContractError)
deriving DecidableEq

/-- The client struct of the source (lines 12 to 18). -/
structure ChainlinkContract where
  contract : Contract
  identifier : String
  decimals : ℕ
  call_timeout : ℕ
deriving DecidableEq

/-- The raw tuple returned by the latestRoundData call (line 49):
(round_id, answer, started_at, updated_at, answered_in_round). -/
structure RawRound where
  round_id : ℕ
  answer : ℕ
  started_at : ℕ
  updated_at : ℕ
  answered_in_round : ℕ
deriving DecidableEq

/-- The normalized result struct of the source (lines 32 to 46); the f64
answer is carried by its exact rational value. -/
structure Round where
  identifier : String
  round_id : ℕ
  answered_in_round : ℕ
  started_at : ℕ
  updated_at : ℕ
  answer : ℚ
deriving DecidableEq

/-- Fate of the single remote call an operation dispatches: either the
awaiting task hits the deadline first, or the call completes with a result
or a transport failure. -/
inductive Remote (α : Type) where
  | timesOut
  | completes (r : Except ContractError α)

/-- The helper at lines 52 to 61 of the source:
method("decimals").unwrap().call().await?.as_u64() as u8.
The unwrap panics (none) when the ABI lacks the function; as_u64 panics
when the returned U256 exceeds the u64 range; otherwise the low 64 bits
are truncated to u8, that is, reduced modulo 256.  callResult is the value
the completed remote call resolved to. -/
def decimals (contract : Contract) (callResult : Except ContractError ℕ) :
    Option (Except ContractError ℕ) :=
  match contract.method "decimals" with
  | .error _ => none
  | .ok _ =>
    match callResult with
    | .error e => some (.error e)
    | .ok v => if v < 2 ^ 64 then some (.ok (v % 256)) else none

/-- Constructor logic of the source (lines 66 to 84), generalized over the
content of the build-time ABI constant.  The result pairs the returned
value (none models a panic) with the list of remotely dispatched method
names.  The method lookup runs synchronously at the first poll of the
timed future, so a lookup failure panics at the unwrap inside the decimals
helper before any call is dispatched and before the deadline can fire; a
deadline hit maps to the Timeout variant through the first question mark,
a completed failing call to the Contract variant through the second one. -/
def newWithAbi (abi : List String) (provider : Provider) (identifier : String)
    (contract_address : ℕ) (call_timeout : ℕ) (env : Remote ℕ) :
    Option (Except ContractCallError ChainlinkContract) × List String :=
  match (Contract.new contract_address abi provider).method "decimals" with
  | .error _ => (none, [])
  | .ok _ =>
    match env with
    | .timesOut => (some (.error .Timeout), ["decimals"])
    | .completes (.error e) => (some (.error (.Contract e)), ["decimals"])
    | .completes (.ok v) =>
      ((if v < 2 ^ 64 then
          some (.ok ⟨Contract.new contract_address abi provider, identifier,
                     v % 256, call_timeout⟩)
        else none), ["decimals"])

/-- ChainlinkContract::new of the source (lines 66 to 84), with the ABI
fixed to the embedded schema. -/
def ChainlinkContract.new (provider : Provider) (identifier : String)
    (contract_address : ℕ) (call_timeout : ℕ) (env : Remote ℕ) :
    Option (Except ContractCallError ChainlinkContract) × List String :=
  newWithAbi aggregatorV3Abi provider identifier contract_address call_timeout env

/-- round_data of the source (lines 87 to 90): a failed method lookup is
converted by the question mark into a ContractError and returned without
dispatching; otherwise the completed call result is forwarded. -/
def ChainlinkContract.round_data (self : ChainlinkContract)
    (callResult : Except ContractError RawRound) :
    Except ContractError RawRound × List String :=
  match self.contract.method "latestRoundData" with
  | .error e => (.error (ContractError.ofAbi e), [])
  | .ok _ => (callResult, ["latestRoundData"])

/-- latest_round_data of the source (lines 94 to 113).  A failed method
lookup inside round_data resolves the timed future immediately, so the
deadline cannot fire on that path; a deadline hit maps to Timeout, a
completed failure to Contract.  On success the raw answer is formatted as
its decimal string, reparsed as binary64 (the unwrap at line 100 panics if
parsing fails, modeled as none), scaled down by ten to the stored decimals
computed with powi, and packaged with the stored identifier. -/
def ChainlinkContract.latest_round_data (self : ChainlinkContract)
    (env : Remote RawRound) :
    Option (Except ContractCallError Round) × List String :=
  match self.contract.method "latestRoundData" with
  | .error e => (some (.error (.Contract (ContractError.ofAbi e))), [])
  | .ok _ =>
    match env with
    | .timesOut => (some (.error .Timeout), ["latestRoundData"])
    | .completes (.error e) => (some (.error (.Contract e)), ["latestRoundData"])
    | .completes (.ok raw) =>
      ((match parseF64Str (decimalString raw.answer) with
        | none => none
        | some float_answer =>
          some (.ok ⟨self.identifier, raw.round_id, raw.answered_in_round,
                     raw.started_at, raw.updated_at,
                     fdiv float_answer (powiF64 10 self.decimals)⟩)),
       ["latestRoundData"])

/-- One step of a client session.  The Rust method borrows the client
immutably (a shared reference with no interior mutability and no unsafe
code), so a call cannot modify any field; the pair makes the identity state
transition explicit so that frame properties can be stated. -/
def callStep (c : ChainlinkContract) (env : Remote RawRound) :
    ChainlinkContract × (Option (Except ContractCallError Round) × List String) :=
  (c, c.latest_round_data env)

/-- The normalization formula exactly as the specification words it: the
exact decimal string representation of the raw answer, parsed as a 64-bit
float, divided by ten to the scale, every float operation in binary64 as
the program performs it. -/
def specNormalize (a scale : ℕ) : Option ℚ :=
  (parseF64Str (decimalString a)).map (fun f => fdiv f (powiF64 10 scale))

/-! ## Structured serialization of Round

Modelled from the spec: Round derives Serialize and Deserialize (line 32)
and the specification requires all fields to round-trip through a
structured serialization format.  The derived implementation writes the
struct as a map from field names to field values; the float answer is
emitted as the shortest decimal that reparses to the same binary64 value,
so its value is carried exactly. -/

/-- A structured serialization tree. -/
inductive SValue where
  | str (s : String)
  | nat (n : ℕ)
  | flt (q : ℚ)
  | obj (fields : List (String × SValue))

/-- Field-by-field serialization of Round, as derived. -/
def Round.serialize (r : Round) : SValue :=
  .obj [("identifier", .str r.identifier), ("round_id", .nat r.round_id),
        ("answered_in_round", .nat r.answered_in_round),
        ("started_at", .nat r.started_at), ("updated_at", .nat r.updated_at),
        ("answer", .flt r.answer)]

/-- Field-by-field deserialization of Round, as derived. -/
def Round.deserialize (v : SValue) : Option Round :=
  match v with
  | .obj [("identifier", .str i), ("round_id", .nat rid),
          ("answered_in_round", .nat air), ("started_at", .nat sa),
          ("updated_at", .nat ua), ("answer", .flt ans)] =>
    some ⟨i, rid, air, sa, ua, ans⟩
  | _ => none

/-! ## Concrete sample values used by the witnesses -/

/-- A concrete endpoint, as in the test at line 126. -/
def provider0 : Provider := ⟨"test-endpoint"⟩

/-- A concrete client over the embedded schema with scale 8. -/
def client0 : ChainlinkContract :=
  ⟨Contract.new 0 aggregatorV3Abi provider0, "ETH", 8, 10⟩

/-- The concrete raw tuple of the specification scenario. -/
def raw0 : RawRound := ⟨42, 312345678900, 1000, 1005, 42⟩

/-- A concrete round value. -/
def round0 : Round := ⟨"ETH", 42, 42, 1000, 1005, 3123456789 / 1000000⟩

/-! ## Arithmetic facts about the decimal string model -/

theorem digitsAux_zero (f : ℕ) : digitsAux f 0 = [] := by
  cases f <;> simp [digitsAux]

theorem digitVal_ofNat (k : ℕ) (hk : k < 10) : digitVal (Char.ofNat (48 + k)) = k := by
  interval_cases k <;> decide

theorem isDigitChar_ofNat (k : ℕ) (hk : k < 10) :
    isDigitChar (Char.ofNat (48 + k)) = true := by
  interval_cases k <;> decide

theorem digitsAux_spec (f : ℕ) : ∀ n, 0 < n → n < 10 ^ f →
    digitsAux f n ≠ [] ∧ (∀ c ∈ digitsAux f n, isDigitChar c = true) ∧
    digitsVal (digitsAux f n) = n := by
  induction f with
  | zero =>
    intro n h1 h2
    simp at h2
    omega
  | succ f ih =>
    intro n h1 h2
    have hmod : n % 10 < 10 := Nat.mod_lt _ (by norm_num)
    have hd : digitsAux (f + 1) n
        = digitsAux f (n / 10) ++ [Char.ofNat (48 + n % 10)] := by
      simp [digitsAux, h1.ne']
    by_cases h10 : n < 10
    · have hq : n / 10 = 0 := Nat.div_eq_of_lt h10
      rw [hd, hq, digitsAux_zero]
      refine ⟨by simp, ?_, ?_⟩
      · intro c hc
        simp only [List.nil_append, List.mem_singleton] at hc
        subst hc
        exact isDigitChar_ofNat _ hmod
      · simp only [List.nil_append, digitsVal, List.foldl_cons, List.foldl_nil]
        rw [digitVal_ofNat _ hmod]
        omega
    · have hpos : 0 < n / 10 := Nat.div_pos (le_of_not_lt h10) (by norm_num)
      have hlt : n / 10 < 10 ^ f := by
        rw [Nat.div_lt_iff_lt_mul (by norm_num)]
        calc n < 10 ^ (f + 1) := h2
          _ = 10 ^ f * 10 := by ring
      obtain ⟨hne, hdig, hval⟩ := ih (n / 10) hpos hlt
      rw [hd]
      refine ⟨by simp, ?_, ?_⟩
      · intro c hc
        rcases List.mem_append.mp hc with h | h
        · exact hdig c h
        · simp only [List.mem_singleton] at h
          subst h
          exact isDigitChar_ofNat _ hmod
      · unfold digitsVal at hval ⊢
        rw [List.foldl_append, hval]
        simp only [List.foldl_cons, List.foldl_nil]
        rw [digitVal_ofNat _ hmod]
        omega

theorem parseF64Str_decimalString (n : ℕ) :
    parseF64Str (decimalString n) = some (roundF64 (n : ℚ)) := by
  by_cases h0 : n = 0
  · subst h0
    decide
  · have hlt : n < 10 ^ (n + 1) := by
      calc n < 10 ^ n := Nat.lt_pow_self (by norm_num) n
        _ ≤ 10 ^ (n + 1) := Nat.pow_le_pow_right (by norm_num) (Nat.le_succ n)
    obtain ⟨hne, hdig, hval⟩ := digitsAux_spec (n + 1) n (Nat.pos_of_ne_zero h0) hlt
    unfold parseF64Str decimalString
    rw [if_neg h0]
    have hdata : (String.mk (digitsAux (n + 1) n)).data = digitsAux (n + 1) n := rfl
    rw [hdata, if_pos ⟨hne, List.all_eq_true.mpr hdig⟩, hval]

/-! ## Behaviour of the embedded operations -/

theorem method_of_aggregator (cn : Contract) (habi : cn.abi = aggregatorV3Abi)
    (s : String) (hs : s ∈ aggregatorV3Abi) : cn.method s = .ok ⟨s⟩ := by
  unfold Contract.method
  rw [habi, if_pos hs]

theorem method_decimals (cn : Contract) (habi : cn.abi = aggregatorV3Abi) :
    cn.method "decimals" = .ok ⟨"decimals"⟩ :=
  method_of_aggregator cn habi _ (by decide)

theorem method_latestRoundData (cn : Contract) (habi : cn.abi = aggregatorV3Abi) :
    cn.method "latestRoundData" = .ok ⟨"latestRoundData"⟩ :=
  method_of_aggregator cn habi _ (by decide)

theorem new_timesOut (p : Provider) (i : String) (ad t : ℕ) :
    ChainlinkContract.new p i ad t .timesOut
      = (some (.error .Timeout), ["decimals"]) := rfl

theorem new_completes_error (p : Provider) (i : String) (ad t : ℕ)
    (e : ContractError) :
    ChainlinkContract.new p i ad t (.completes (.error e))
      = (some (.error (.Contract e)), ["decimals"]) := rfl

theorem new_completes_ok (p : Provider) (i : String) (ad t v : ℕ) :
    ChainlinkContract.new p i ad t (.completes (.ok v))
      = ((if v < 2 ^ 64 then
            some (.ok ⟨Contract.new ad aggregatorV3Abi p, i, v % 256, t⟩)
          else none), ["decimals"]) := rfl

theorem latest_round_data_timesOut (c : ChainlinkContract)
    (habi : c.contract.abi = aggregatorV3Abi) :
    c.latest_round_data .timesOut
      = (some (.error .Timeout), ["latestRoundData"]) := by
  simp only [ChainlinkContract.latest_round_data, method_latestRoundData c.contract habi]

theorem latest_round_data_completes_error (c : ChainlinkContract)
    (habi : c.contract.abi = aggregatorV3Abi) (e : ContractError) :
    c.latest_round_data (.completes (.error e))
      = (some (.error (.Contract e)), ["latestRoundData"]) := by
  simp only [ChainlinkContract.latest_round_data, method_latestRoundData c.contract habi]

theorem latest_round_data_completes_ok (c : ChainlinkContract)
    (habi : c.contract.abi = aggregatorV3Abi) (raw : RawRound) :
    c.latest_round_data (.completes (.ok raw))
      = (some (.ok ⟨c.identifier, raw.round_id, raw.answered_in_round,
                    raw.started_at, raw.updated_at,
                    fdiv (roundF64 (raw.answer : ℚ)) (powiF64 10 c.decimals)⟩),
         ["latestRoundData"]) := by
  simp only [ChainlinkContract.latest_round_data, method_latestRoundData c.contract habi,
    parseF64Str_decimalString]

/-! ## The claims -/

/-- C1: for every scale in [0,255] and every nonnegative raw integer answer
(a u128 value), the answer field produced by latest_round_data equals the
exact decimal string representation of the raw answer, parsed as a 64-bit
float, divided by ten to the scale (the float power and division being the
binary64 operations the program performs); and the normalization is
deterministic for fixed inputs: any two successful calls over clients with
the same stored scale and the same raw answer produce the same answer. -/
theorem C1_normalization_matches_spec (scale a : ℕ) (hs : scale ≤ 255)
    (ha : a < 2 ^ 128) (c : ChainlinkContract)
    (habi : c.contract.abi = aggregatorV3Abi) (hd : c.decimals = scale)
    (raw : RawRound) (hra : raw.answer = a) :
    (∃ r : Round, (c.latest_round_data (.completes (.ok raw))).1 = some (.ok r) ∧
       some r.answer = specNormalize a scale) ∧
    (∀ (c' : ChainlinkContract) (raw' : RawRound) (r₁ r₂ : Round),
       c'.contract.abi = aggregatorV3Abi → c'.decimals = scale →
       raw'.answer = a →
       (c.latest_round_data (.completes (.ok raw))).1 = some (.ok r₁) →
       (c'.latest_round_data (.completes (.ok raw'))).1 = some (.ok r₂) →
       r₁.answer = r₂.answer) := by
  constructor
  · refine ⟨⟨c.identifier, raw.round_id, raw.answered_in_round, raw.started_at,
        raw.updated_at, fdiv (roundF64 (raw.answer : ℚ)) (powiF64 10 c.decimals)⟩, ?_, ?_⟩
    · rw [latest_round_data_completes_ok c habi raw]
    · simp only [specNormalize, parseF64Str_decimalString, Option.map_some', hra, hd]
  · intro c' raw' r₁ r₂ habi' hd' hra' h₁ h₂
    rw [latest_round_data_completes_ok c habi raw] at h₁
    rw [latest_round_data_completes_ok c' habi' raw'] at h₂
    simp only [Option.some.injEq, Except.ok.injEq] at h₁ h₂
    rw [← h₁, ← h₂]
    simp only [hra, hra', hd, hd']

/-- C1 witness: the concrete scenario with scale 8 and raw answer
312345678900 on the sample client. -/
theorem C1_witness :
    8 ≤ 255 ∧ 312345678900 < 2 ^ 128 ∧
    client0.contract.abi = aggregatorV3Abi ∧ client0.decimals = 8 ∧
    raw0.answer = 312345678900 ∧
    (∃ r : Round, (client0.latest_round_data (.completes (.ok raw0))).1 = some (.ok r) ∧
       some r.answer = specNormalize 312345678900 8) :=
  ⟨by norm_num, by norm_num, rfl, rfl, rfl,
   (C1_normalization_matches_spec 8 312345678900 (by norm_num) (by norm_num)
     client0 rfl rfl raw0 rfl).1⟩

/-- C2, code bug demonstration: with an embedded schema whose function list
lacks decimals (the mismatched-interface scenario of the claim), the
constructor panics at the unwrap inside the decimals helper (modeled as a
none result) and dispatches no remote call (empty trace), instead of
returning the Schema kind error that the specification and the Abi variant
of the error enum promise.  The no-network-call half of the claim holds;
the returns-a-Schema-error half does not. -/
theorem C2_schema_mismatch_panics_before_dispatch :
    (newWithAbi ["latestRoundData"] provider0 "ETH" 0 10 (.completes (.ok 8))).1 = none ∧
    (newWithAbi ["latestRoundData"] provider0 "ETH" 0 10 (.completes (.ok 8))).2 = [] ∧
    (newWithAbi ["latestRoundData"] provider0 "ETH" 0 10 .timesOut).1 = none ∧
    (newWithAbi ["latestRoundData"] provider0 "ETH" 0 10 .timesOut).2 = [] :=
  ⟨rfl, rfl, rfl, rfl⟩

/-- C3: if the remote decimals call does not complete within the deadline,
construction returns the Timeout error; and every returned outcome is
either an error or a fully populated client holding the endpoint-bound
contract handle, the identifier, the resolved scale and the timeout, never
a partial value. -/
theorem C3_construction_all_or_nothing (p : Provider) (i : String) (ad t : ℕ)
    (env : Remote ℕ) :
    (ChainlinkContract.new p i ad t .timesOut).1 = some (.error .Timeout) ∧
    (∀ res, (ChainlinkContract.new p i ad t env).1 = some res →
      (∃ e, res = .error e) ∨
      (∃ c, res = .ok c ∧ c.contract = Contract.new ad aggregatorV3Abi p ∧
        c.identifier = i ∧ c.call_timeout = t ∧
        ∃ v, env = .completes (.ok v) ∧ v < 2 ^ 64 ∧ c.decimals = v % 256)) := by
  constructor
  · rfl
  · intro res hres
    cases env with
    | timesOut =>
      rw [new_timesOut] at hres
      exact Or.inl ⟨.Timeout, (Option.some.inj hres).symm⟩
    | completes r =>
      cases r with
      | error e =>
        rw [new_completes_error] at hres
        exact Or.inl ⟨.Contract e, (Option.some.inj hres).symm⟩
      | ok v =>
        rw [new_completes_ok] at hres
        by_cases hv : v < 2 ^ 64
        · rw [if_pos hv] at hres
          refine Or.inr ⟨_, (Option.some.inj hres).symm, rfl, rfl, rfl, v, rfl, hv, rfl⟩
        · rw [if_neg hv] at hres
          exact absurd hres (by simp)

/-- C3 witness: concrete construction attempts. -/
theorem C3_witness :
    (ChainlinkContract.new provider0 "ETH" 0 10 .timesOut).1
        = some (.error .Timeout) ∧
    (∀ res, (ChainlinkContract.new provider0 "ETH" 0 10 (.completes (.ok 8))).1 = some res →
      (∃ e, res = .error e) ∨
      (∃ c, res = .ok c ∧ c.contract = Contract.new 0 aggregatorV3Abi provider0 ∧
        c.identifier = "ETH" ∧ c.call_timeout = 10 ∧
        ∃ v, Remote.completes (Except.ok 8) = Remote.completes (Except.ok v) ∧
          v < 2 ^ 64 ∧ c.decimals = v % 256)) :=
  C3_construction_all_or_nothing provider0 "ETH" 0 10 (.completes (.ok 8))

/-- C4: when the latestRoundData call hits the deadline, latest_round_data
returns the Timeout error, every field of the client is unchanged (the
method borrows the client immutably, made explicit by the identity state
transition of callStep), and a subsequent call on the resulting client
behaves exactly as a call on the original, so the client stays reusable. -/
theorem C4_timeout_leaves_client_reusable (c : ChainlinkContract)
    (habi : c.contract.abi = aggregatorV3Abi) (env' : Remote RawRound) :
    (callStep c .timesOut).2.1 = some (.error .Timeout) ∧
    (callStep c .timesOut).1.contract = c.contract ∧
    (callStep c .timesOut).1.identifier = c.identifier ∧
    (callStep c .timesOut).1.decimals = c.decimals ∧
    (callStep c .timesOut).1.call_timeout = c.call_timeout ∧
    callStep ((callStep c .timesOut).1) env' = callStep c env' := by
  refine ⟨?_, rfl, rfl, rfl, rfl, rfl⟩
  show (c.latest_round_data .timesOut).1 = some (.error .Timeout)
  rw [latest_round_data_timesOut c habi]

/-- C4 witness: the sample client, followed by a successful retry. -/
theorem C4_witness :
    client0.contract.abi = aggregatorV3Abi ∧
    ((callStep client0 .timesOut).2.1 = some (.error .Timeout) ∧
     (callStep client0 .timesOut).1.contract = client0.contract ∧
     (callStep client0 .timesOut).1.identifier = client0.identifier ∧
     (callStep client0 .timesOut).1.decimals = client0.decimals ∧
     (callStep client0 .timesOut).1.call_timeout = client0.call_timeout ∧
     callStep ((callStep client0 .timesOut).1) (.completes (.ok raw0))
       = callStep client0 (.completes (.ok raw0))) :=
  ⟨rfl, C4_timeout_leaves_client_reusable client0 rfl (.completes (.ok raw0))⟩

/-- C5: the error type admits exactly the three variants Abi (schema),
Timeout and Contract (remote); both fallible operations forward a deadline
hit as the Timeout error and a completed remote failure as the Contract
error wrapping the reported detail unchanged, suppressing nothing. -/
theorem C5_error_taxonomy_three_kinds (e : ContractCallError)
    (c : ChainlinkContract) (habi : c.contract.abi = aggregatorV3Abi)
    (p : Provider) (i : String) (ad t : ℕ) (err : ContractError) :
    ((∃ ae, e = .Abi ae) ∨ e = .Timeout ∨ (∃ ce, e = .Contract ce)) ∧
    (ChainlinkContract.new p i ad t .timesOut).1 = some (.error .Timeout) ∧
    (ChainlinkContract.new p i ad t (.completes (.error err))).1
      = some (.error (.Contract err)) ∧
    (c.latest_round_data .timesOut).1 = some (.error .Timeout) ∧
    (c.latest_round_data (.completes (.error err))).1
      = some (.error (.Contract err)) := by
  refine ⟨?_, rfl, rfl, ?_, ?_⟩
  · cases e with
    | Abi ae => exact Or.inl ⟨ae, rfl⟩
    | Timeout => exact Or.inr (Or.inl rfl)
    | Contract ce => exact Or.inr (Or.inr ⟨ce, rfl⟩)
  · rw [latest_round_data_timesOut c habi]
  · rw [latest_round_data_completes_error c habi err]

/-- C5 witness: concrete error value, client and failure detail. -/
theorem C5_witness :
    client0.contract.abi = aggregatorV3Abi ∧
    (((∃ ae, ContractCallError.Timeout = .Abi ae) ∨
       ContractCallError.Timeout = .Timeout ∨
       (∃ ce, ContractCallError.Timeout = .Contract ce)) ∧
     (ChainlinkContract.new provider0 "ETH" 0 10 .timesOut).1
       = some (.error .Timeout) ∧
     (ChainlinkContract.new provider0 "ETH" 0 10
        (.completes (.error ⟨"reverted"⟩))).1
       = some (.error (.Contract ⟨"reverted"⟩)) ∧
     (client0.latest_round_data .timesOut).1 = some (.error .Timeout) ∧
     (client0.latest_round_data (.completes (.error ⟨"reverted"⟩))).1
       = some (.error (.Contract ⟨"reverted"⟩))) :=
  ⟨rfl, C5_error_taxonomy_three_kinds .Timeout client0 rfl provider0 "ETH" 0 10
    ⟨"reverted"⟩⟩

/-- C6: a successful latest_round_data call returns a Round whose
identifier is the configured feed label and whose round_id,
answered_in_round, started_at and updated_at fields are the raw tuple
components unchanged; in the concrete scenario with scale 8 and raw answer
312345678900 the answer is within float epsilon (relative, 2 to the
power -52) of 3123.456789. -/
theorem C6_round_fields_and_concrete_answer (c : ChainlinkContract)
    (habi : c.contract.abi = aggregatorV3Abi) (raw : RawRound)
    (hd : c.decimals = 8) (ha : raw.answer = 312345678900) :
    (∀ (c' : ChainlinkContract) (raw' : RawRound),
       c'.contract.abi = aggregatorV3Abi →
       ∃ r : Round, (c'.latest_round_data (.completes (.ok raw'))).1 = some (.ok r) ∧
         r.identifier = c'.identifier ∧ r.round_id = raw'.round_id ∧
         r.answered_in_round = raw'.answered_in_round ∧
         r.started_at = raw'.started_at ∧ r.updated_at = raw'.updated_at) ∧
    (∃ r : Round, (c.latest_round_data (.completes (.ok raw))).1 = some (.ok r) ∧
       |r.answer - 3123456789 / 1000000| ≤ 1 / 2 ^ 52 * (3123456789 / 1000000)) := by
  constructor
  · intro c' raw' habi'
    refine ⟨⟨c'.identifier, raw'.round_id, raw'.answered_in_round, raw'.started_at,
        raw'.updated_at, fdiv (roundF64 (raw'.answer : ℚ)) (powiF64 10 c'.decimals)⟩,
      ?_, rfl, rfl, rfl, rfl, rfl⟩
    rw [latest_round_data_completes_ok c' habi' raw']
  · refine ⟨⟨c.identifier, raw.round_id, raw.answered_in_round, raw.started_at,
        raw.updated_at, fdiv (roundF64 (raw.answer : ℚ)) (powiF64 10 c.decimals)⟩,
      ?_, ?_⟩
    · rw [latest_round_data_completes_ok c habi raw]
    · show |fdiv (roundF64 (raw.answer : ℚ)) (powiF64 10 c.decimals) - 3123456789 / 1000000|
          ≤ 1 / 2 ^ 52 * (3123456789 / 1000000)
      rw [ha, hd]
      decide

/-- C6 witness: the sample client and the raw tuple 42, 312345678900,
1000, 1005, 42. -/
theorem C6_witness :
    client0.contract.abi = aggregatorV3Abi ∧ client0.decimals = 8 ∧
    raw0.answer = 312345678900 ∧
    (∃ r : Round, (client0.latest_round_data (.completes (.ok raw0))).1 = some (.ok r) ∧
       |r.answer - 3123456789 / 1000000| ≤ 1 / 2 ^ 52 * (3123456789 / 1000000)) :=
  ⟨rfl, rfl, rfl,
   (C6_round_fields_and_concrete_answer client0 rfl raw0 rfl rfl).2⟩

/-- C7: the scale is resolved exactly once, at construction (every
construction attempt dispatches exactly the one decimals call); querying
never dispatches a decimals call, and the stored scale is the same value
across consecutive operations on the same client. -/
theorem C7_scale_resolved_once_never_reread (c : ChainlinkContract)
    (env : Remote RawRound) (p : Provider) (i : String) (ad t : ℕ)
    (env₂ : Remote ℕ) (env₃ : Remote RawRound) :
    "decimals" ∉ (c.latest_round_data env).2 ∧
    (ChainlinkContract.new p i ad t env₂).2 = ["decimals"] ∧
    (callStep c env).1.decimals = c.decimals ∧
    (callStep (callStep c env).1 env₃).1.decimals = c.decimals := by
  refine ⟨?_, ?_, rfl, rfl⟩
  · unfold ChainlinkContract.latest_round_data
    rcases c.contract.method "latestRoundData" with e | f
    · simp
    · rcases env with _ | r
      · simp
      · rcases r with e | raw
        · simp
        · rcases hp : parseF64Str (decimalString raw.answer) with _ | q <;> simp [hp]
  · rcases env₂ with _ | r
    · rfl
    · rcases r with e | v
      · rfl
      · rfl

/-- C7 witness: the sample client under a successful query environment. -/
theorem C7_witness :
    "decimals" ∉ (client0.latest_round_data (.completes (.ok raw0))).2 ∧
    (ChainlinkContract.new provider0 "ETH" 0 10 (.completes (.ok 8))).2
      = ["decimals"] ∧
    (callStep client0 (.completes (.ok raw0))).1.decimals = client0.decimals ∧
    (callStep (callStep client0 (.completes (.ok raw0))).1 .timesOut).1.decimals
      = client0.decimals :=
  C7_scale_resolved_once_never_reread client0 (.completes (.ok raw0)) provider0
    "ETH" 0 10 (.completes (.ok 8)) .timesOut

/-- C8: serializing a Round to the structured format and deserializing the
result yields the identical Round, field for field; the float answer is
carried by its exact value, so no precision beyond the one already in the
field is lost. -/
theorem C8_round_serialization_roundtrip (r : Round) :
    Round.deserialize (Round.serialize r) = some r := rfl

/-- C8 witness: the concrete sample round. -/
theorem C8_witness : Round.deserialize (Round.serialize round0) = some round0 :=
  C8_round_serialization_roundtrip round0

/-- C9: the scale stored at construction is the remote decimals result
reduced modulo 256: below 2 to the power 64 the helper returns the low
byte and construction stores it; at or above 2 to the power 64 the as_u64
cast panics (none), so the conversion is not total; and a feed reporting
more than 255 decimals (but below the panic threshold) silently yields a
scale different from the reported value rather than an error. -/
theorem C9_decimals_cast_mod_256 (cn : Contract)
    (habi : cn.abi = aggregatorV3Abi) (v : ℕ) (hv : v < 2 ^ 256)
    (p : Provider) (i : String) (ad t : ℕ) :
    (v < 2 ^ 64 → decimals cn (.ok v) = some (.ok (v % 256)) ∧
      (ChainlinkContract.new p i ad t (.completes (.ok v))).1
        = some (.ok ⟨Contract.new ad aggregatorV3Abi p, i, v % 256, t⟩)) ∧
    (2 ^ 64 ≤ v → decimals cn (.ok v) = none ∧
      (ChainlinkContract.new p i ad t (.completes (.ok v))).1 = none) ∧
    (255 < v → v < 2 ^ 64 → v % 256 ≠ v) := by
  have hm := method_decimals cn habi
  refine ⟨?_, ?_, ?_⟩
  · intro h64
    constructor
    · simp only [decimals, hm, if_pos h64]
    · rw [new_completes_ok]
      simp only [if_pos h64]
  · intro h64
    have hn : ¬v < 2 ^ 64 := not_lt.mpr h64
    constructor
    · simp only [decimals, hm, if_neg hn]
    · rw [new_completes_ok]
      simp only [if_neg hn]
  · intro h255 h64
    have : v % 256 < 256 := Nat.mod_lt _ (by norm_num)
    omega

/-- C9 witness: a feed reporting 300 decimals is stored as 44, and one
reporting 2 to the power 64 panics. -/
theorem C9_witness :
    (Contract.new 0 aggregatorV3Abi provider0).abi = aggregatorV3Abi ∧
    (300 : ℕ) < 2 ^ 256 ∧ (2 ^ 64 : ℕ) < 2 ^ 256 ∧
    ((300 : ℕ) < 2 ^ 64 →
      decimals (Contract.new 0 aggregatorV3Abi provider0) (.ok 300)
        = some (.ok (300 % 256)) ∧
      (ChainlinkContract.new provider0 "ETH" 0 10 (.completes (.ok 300))).1
        = some (.ok ⟨Contract.new 0 aggregatorV3Abi provider0, "ETH", 300 % 256, 10⟩)) ∧
    ((2 ^ 64 : ℕ) ≤ 2 ^ 64 →
      decimals (Contract.new 0 aggregatorV3Abi provider0) (.ok (2 ^ 64)) = none ∧
      (ChainlinkContract.new provider0 "ETH" 0 10 (.completes (.ok (2 ^ 64)))).1
        = none) :=
  ⟨rfl, by norm_num, by norm_num,
   (C9_decimals_cast_mod_256 (Contract.new 0 aggregatorV3Abi provider0) rfl 300
     (by norm_num) provider0 "ETH" 0 10).1,
   (C9_decimals_cast_mod_256 (Contract.new 0 aggregatorV3Abi provider0) rfl (2 ^ 64)
     (by norm_num) provider0 "ETH" 0 10).2.1⟩

/-- C10: for every u128 raw answer, parsing its exact decimal string
representation as a 64-bit float succeeds (with the correctly rounded
value), so the unwrap on the parse result in latest_round_data never takes
the failure branch and a completed successful call never panics. -/
theorem C10_parse_of_decimal_string_total (a : ℕ) (ha : a < 2 ^ 128)
    (c : ChainlinkContract) (habi : c.contract.abi = aggregatorV3Abi)
    (raw : RawRound) (hra : raw.answer = a) :
    parseF64Str (decimalString a) = some (roundF64 (a : ℚ)) ∧
    (c.latest_round_data (.completes (.ok raw))).1 ≠ none := by
  refine ⟨parseF64Str_decimalString a, ?_⟩
  rw [latest_round_data_completes_ok c habi raw]
  simp

/-- C10 witness: the largest u128 value. -/
theorem C10_witness :
    (2 ^ 128 - 1 : ℕ) < 2 ^ 128 ∧
    client0.contract.abi = aggregatorV3Abi ∧
    (⟨1, 2 ^ 128 - 1, 0, 0, 1⟩ : RawRound).answer = 2 ^ 128 - 1 ∧
    (parseF64Str (decimalString (2 ^ 128 - 1)) = some (roundF64 ((2 ^ 128 - 1 : ℕ) : ℚ)) ∧
     (client0.latest_round_data (.completes (.ok ⟨1, 2 ^ 128 - 1, 0, 0, 1⟩))).1 ≠ none) :=
  ⟨by norm_num, rfl, rfl,
   C10_parse_of_decimal_string_total (2 ^ 128 - 1) (by norm_num) client0 rfl
     ⟨1, 2 ^ 128 - 1, 0, 0, 1⟩ rfl⟩

end Rustlink
